import Mathlib

/-!
Verification of the monitoring core of `src/src/App.jsx` (the AI-Mom app).

The component holds React state (`isActive`, `mode`, `status`,
`lastMessage`, `settingsOpen`, `apiKey`, the interval handle) and four
operations: `toggleMonitoring` (start/stop), `analyzeFrame` (one cycle:
capture a frame, call the inference API, branch on the verdict),
`speakText` (speech output) and `logEvent` (Firestore sink).  External
effects (the fetch outcome, the body and candidate-text parse outcomes,
the sink, the speech device) are inputs of the embedding; the functions
below follow the JS control flow line by line.
-/

namespace AiMom

/-- The React state of the App component read and written by the
monitoring loop: the active flag, the selected mode string, the status
string (one of idle, analyzing, good, warning, error), the last
human-readable message (`none` models a JS undefined value; the initial
value is `some "Mom is ready."`), the settings-panel flag, the API key
(the empty string models a missing key, the falsy value that the test
`if (!apiKey)` checks), and whether the recurring interval timer is
live. -/
structure MonitorState where
  isActive : Bool
  mode : String
  status : String
  lastMessage : Option String
  settingsOpen : Bool
  apiKey : String
  intervalActive : Bool
  deriving Repr, DecidableEq

/-- Outcome of running JSON.parse on the candidate text of the API
response (line 149): `notJson` when the text is not valid JSON
(JSON.parse throws), `jsonNull` when the text is the JSON document
"null" (JSON.parse succeeds returning null, and the later property
access result.status then throws a TypeError), and `jsonVal status
message` for every other JSON value, where `status` (resp. `message`)
is `some v` when the parsed value is an object whose field is the
string v, and `none` when the field is absent, not a string, or the
value is not an object — in all `none` cases the strict comparison
result.status === "bad" in the source is false. -/
inductive TextOutcome
  | notJson
  | jsonNull
  | jsonVal (status : Option String) (message : Option String)
  deriving Repr, DecidableEq

/-- Outcome of reading the HTTP response body (line 148): `notJson`
when response.json() rejects, or `json candidateText` for a JSON body
whose candidate path data.candidates[0].content.parts[0].text is
absent (`none`: the access throws a TypeError) or present with the
given parse outcome. -/
inductive BodyOutcome
  | notJson
  | json (candidateText : Option TextOutcome)
  deriving Repr, DecidableEq

/-- Outcome of the fetch call (line 134): the promise rejects (network
failure), or it resolves with a response; `httpOk` records whether the
HTTP status was a success status.  The source never reads response.ok
or response.status. -/
inductive NetOutcome
  | reject
  | resolved (httpOk : Bool) (body : BodyOutcome)
  deriving Repr, DecidableEq

/-- The Firestore sink as `logEvent` sees it: whether db is configured
(a parseable VITE_FIREBASE_CONFIG made `db` non-null) and whether the
addDoc write rejects. -/
structure SinkEnv where
  dbConfigured : Bool
  writeFails : Bool
  deriving Repr, DecidableEq

/-- Environment of one `analyzeFrame` cycle: whether videoRef.current
and canvasRef.current are attached (line 92), whether the video element
has a live stream — a field the source never consults: the canvas
capture draws whatever the element currently shows, a blank or
zero-size frame when no stream is attached, and proceeds — the fetch
outcome, and the sink environment. -/
structure CycleEnv where
  refsPresent : Bool
  streamActive : Bool
  net : NetOutcome
  sink : SinkEnv
  deriving Repr, DecidableEq

/-- The throwing step inside the try block of `analyzeFrame`, naming
which line raised: the fetch rejected, response.json() threw, the
candidate path data.candidates[0].content.parts[0].text threw,
JSON.parse of the candidate text threw, or result.status threw because
result was null. -/
inductive AnalyzeErr
  | fetchReject
  | bodyNotJson
  | candidatesMissing
  | verdictNotJson
  | verdictNull
  deriving Repr, DecidableEq

/-- Lines 134-149 of App.jsx: await the fetch, await the body, extract
the candidate text and JSON.parse it.  On success the result is the
pair (the string value of result.status when it is a string,
likewise result.message); every failure is tagged with the step that
threw.  Note that `httpOk` is matched with a wildcard: the source
never inspects the HTTP status of a resolved response. -/
def analyzeVerdict : NetOutcome → Except AnalyzeErr (Option String × Option String)
  | .reject => .error .fetchReject
  | .resolved _ .notJson => .error .bodyNotJson
  | .resolved _ (.json none) => .error .candidatesMissing
  | .resolved _ (.json (some .notJson)) => .error .verdictNotJson
  | .resolved _ (.json (some .jsonNull)) => .error .verdictNull
  | .resolved _ (.json (some (.jsonVal st msg))) => .ok (st, msg)

/-- `logEvent` (lines 186-199), returning the list of documents
committed to the sink.  With no configured db it returns at once; a
rejecting addDoc is caught and swallowed (console.error only).  The
function never touches the monitor state. -/
def logEvent (sink : SinkEnv) (message : Option String) (type : String) :
    List (Option String × String) :=
  if sink.dbConfigured = false then []
  else if sink.writeFails then []
  else [(message, type)]

/-- Result of one `analyzeFrame` call: the monitor state afterwards,
the `speakText` calls issued (their text argument; `none` models
passing an undefined message), the `logEvent` calls issued (message,
type), and the documents actually committed to the sink. -/
structure CycleResult where
  state : MonitorState
  announces : List (Option String)
  records : List (Option String × String)
  sinkWrites : List (Option String × String)
  deriving Repr, DecidableEq

/-- The synchronous prefix of `analyzeFrame` up to the awaited fetch:
setStatus('analyzing') at line 94.  The canvas capture between this
and the fetch does not touch the monitor state. -/
def analyzeStart (s : MonitorState) : MonitorState :=
  { s with status := "analyzing" }

/-- The continuation of `analyzeFrame` from the resolution of the
network call: the try-block body after the awaits plus the catch
(lines 148-164).  On a parsed verdict with status "bad" it sets
warning, stores the message (even an undefined one) and issues
speakText and logEvent; on any other parsed verdict it sets good with
the fixed affirmation; a throw from any step is caught and sets error,
leaving lastMessage alone.  It never reads isActive. -/
def analyzeResolve (env : CycleEnv) (s : MonitorState) : CycleResult :=
  match analyzeVerdict env.net with
  | .error _ =>
      { state := { s with status := "error" },
        announces := [], records := [], sinkWrites := [] }
  | .ok (st, msg) =>
      if st = some "bad" then
        { state := { s with status := "warning", lastMessage := msg },
          announces := [msg],
          records := [(msg, "violation")],
          sinkWrites := logEvent env.sink msg "violation" }
      else
        { state :=
            { s with status := "good", lastMessage := some "Mom is happy." },
          announces := [], records := [], sinkWrites := [] }

/-- One full `analyzeFrame` cycle (lines 91-165): an unattached
videoRef or canvasRef makes the handler return at once (line 92,
before any state change); otherwise the status becomes analyzing, the
frame is drawn — not a throwing step for a same-origin camera-fed
element, and independent of whether a stream is attached — and the
network part runs inside the try/catch. -/
def analyzeFrame (env : CycleEnv) (s : MonitorState) : CycleResult :=
  if env.refsPresent = false then
    { state := s, announces := [], records := [], sinkWrites := [] }
  else
    analyzeResolve env (analyzeStart s)

/-- The abstract start-precondition failure named by the design; the
source manifests it by opening the settings panel and raising an alert
instead of starting. -/
inductive StartError
  | MissingCredential
  deriving Repr, DecidableEq

/-- `toggleMonitoring` (lines 73-89): when active, clearInterval,
deactivate, set status idle and the paused message; when inactive with
a falsy apiKey, open settings and alert (modelled as the
MissingCredential error) and return without scheduling anything;
otherwise activate, set the watching message and start the 6-second
interval.  Note the start branch changes lastMessage but not the
status field. -/
def toggleMonitoring (s : MonitorState) : MonitorState × Option StartError :=
  if s.isActive then
    ({ s with intervalActive := false, isActive := false,
              status := "idle", lastMessage := some "Monitoring paused." },
     none)
  else if s.apiKey = "" then
    ({ s with settingsOpen := true }, some StartError.MissingCredential)
  else
    ({ s with isActive := true, lastMessage := some "Mom is watching...",
              intervalActive := true },
     none)

/-- The speech-synthesis device as `speakText` sees it: whether
window.speechSynthesis exists, whether an utterance is in progress,
and the utterances handed to synth.speak so far. -/
structure SpeechSynth where
  available : Bool
  speaking : Bool
  delivered : List String
  deriving Repr, DecidableEq

/-- `speakText` (lines 167-184): with no synthesiser or while an
utterance is in progress, return at once; otherwise build the
utterance (rate, pitch and the best-effort female-voice pick are
presentation parameters, not modelled) and hand it to synth.speak,
which starts it, so the device reports speaking. -/
def speakText (text : String) (synth : SpeechSynth) : SpeechSynth :=
  if !synth.available || synth.speaking then synth
  else { synth with speaking := true, delivered := synth.delivered ++ [text] }

/-- The race of the concurrency section: a cycle has passed its
synchronous prefix (status analyzing) and is awaiting fetch; the stop
branch of `toggleMonitoring` runs; then the fetch resolves and the
cycle continuation runs against whatever state stop left.  The first
component is the state right after stop, the second the cycle result
after the resolution. -/
def stopThenResolve (env : CycleEnv) (s : MonitorState) :
    MonitorState × CycleResult :=
  let stopped := (toggleMonitoring (analyzeStart s)).1
  (stopped, analyzeResolve env stopped)

/-- A running session state used by concrete runs. -/
def runningState : MonitorState :=
  { isActive := true, mode := "homework", status := "good",
    lastMessage := some "Mom is happy.", settingsOpen := false,
    apiKey := "k", intervalActive := true }

/-- An idle state with a configured key, as after mount. -/
def idleState : MonitorState :=
  { isActive := false, mode := "homework", status := "idle",
    lastMessage := some "Mom is ready.", settingsOpen := false,
    apiKey := "k", intervalActive := false }

/-- An idle state with no API key configured. -/
def noKeyState : MonitorState :=
  { isActive := false, mode := "homework", status := "idle",
    lastMessage := some "Mom is ready.", settingsOpen := false,
    apiKey := "", intervalActive := false }

/-- No sink configured. -/
def noSink : SinkEnv := { dbConfigured := false, writeFails := false }

/-- A response whose candidate text parses to a good verdict. -/
def goodNet : NetOutcome :=
  .resolved true (.json (some (.jsonVal (some "good") none)))

/-- A response whose candidate text parses to a bad verdict carrying
the given message. -/
def badNet (m : String) : NetOutcome :=
  .resolved true (.json (some (.jsonVal (some "bad") (some m))))

/-- A cycle environment delivering a bad verdict with the message
"Sit up straight". -/
def sitUpEnv : CycleEnv :=
  { refsPresent := true, streamActive := true,
    net := badNet "Sit up straight", sink := noSink }

/-- A cycle environment delivering a good verdict. -/
def goodEnv : CycleEnv :=
  { refsPresent := true, streamActive := true,
    net := goodNet, sink := noSink }

-- ======================================================================
-- Theorems
-- ======================================================================

/-- Claim C1: a cycle whose analysis yields a verdict with status
"bad" and a message sets MonitorStatus to warning, stores that exact
message as the last message, issues exactly one announce (speakText)
call with that message, and exactly one record (logEvent) call with
category violation. -/
theorem c1_bad_cycle (env : CycleEnv) (s : MonitorState) (m : String) (ok : Bool)
    (href : env.refsPresent = true)
    (hnet : env.net = .resolved ok (.json (some (.jsonVal (some "bad") (some m))))) :
    (analyzeFrame env s).state.status = "warning" ∧
    (analyzeFrame env s).state.lastMessage = some m ∧
    (analyzeFrame env s).announces = [some m] ∧
    (analyzeFrame env s).records = [(some m, "violation")] := by
  simp [analyzeFrame, href, analyzeStart, analyzeResolve, hnet, analyzeVerdict]

/-- Witness for C1 at a concrete bad cycle. -/
theorem c1_bad_cycle_witness :
    (analyzeFrame sitUpEnv runningState).state.status = "warning" ∧
    (analyzeFrame sitUpEnv runningState).state.lastMessage = some "Sit up straight" ∧
    (analyzeFrame sitUpEnv runningState).announces = [some "Sit up straight"] ∧
    (analyzeFrame sitUpEnv runningState).records = [(some "Sit up straight", "violation")] :=
  c1_bad_cycle sitUpEnv runningState "Sit up straight" true rfl rfl

/-- Claim C2: a cycle whose analysis yields a verdict with status
"good" sets MonitorStatus to good with the fixed affirmation message
and issues zero announce calls and zero record calls (and commits
nothing to the sink). -/
theorem c2_good_cycle (env : CycleEnv) (s : MonitorState)
    (msg : Option String) (ok : Bool)
    (href : env.refsPresent = true)
    (hnet : env.net = .resolved ok (.json (some (.jsonVal (some "good") msg)))) :
    (analyzeFrame env s).state.status = "good" ∧
    (analyzeFrame env s).state.lastMessage = some "Mom is happy." ∧
    (analyzeFrame env s).announces = [] ∧
    (analyzeFrame env s).records = [] ∧
    (analyzeFrame env s).sinkWrites = [] := by
  simp [analyzeFrame, href, analyzeStart, analyzeResolve, hnet, analyzeVerdict]

/-- Witness for C2 at a concrete good cycle. -/
theorem c2_good_cycle_witness :
    (analyzeFrame goodEnv runningState).state.status = "good" ∧
    (analyzeFrame goodEnv runningState).state.lastMessage = some "Mom is happy." ∧
    (analyzeFrame goodEnv runningState).announces = [] ∧
    (analyzeFrame goodEnv runningState).records = [] ∧
    (analyzeFrame goodEnv runningState).sinkWrites = [] :=
  c2_good_cycle goodEnv runningState none true rfl rfl

/-- Claim C3: in any inactive state — whatever the selected mode,
homework or eating — toggling with no API credential configured fails
with MissingCredential, creates no periodic timer, does not activate
the session, and leaves both the status and the last message exactly
as they were (no watching state is entered). -/
theorem c3_start_missing_credential (s : MonitorState)
    (_hmode : s.mode = "homework" ∨ s.mode = "eating")
    (hinactive : s.isActive = false)
    (hkey : s.apiKey = "") :
    (toggleMonitoring s).2 = some StartError.MissingCredential ∧
    (toggleMonitoring s).1.intervalActive = s.intervalActive ∧
    (toggleMonitoring s).1.isActive = false ∧
    (toggleMonitoring s).1.status = s.status ∧
    (toggleMonitoring s).1.lastMessage = s.lastMessage := by
  simp [toggleMonitoring, hinactive, hkey]

/-- Witness for C3 at a concrete keyless idle state. -/
theorem c3_start_missing_credential_witness :
    (toggleMonitoring noKeyState).2 = some StartError.MissingCredential ∧
    (toggleMonitoring noKeyState).1.intervalActive = noKeyState.intervalActive ∧
    (toggleMonitoring noKeyState).1.isActive = false ∧
    (toggleMonitoring noKeyState).1.status = noKeyState.status ∧
    (toggleMonitoring noKeyState).1.lastMessage = noKeyState.lastMessage :=
  c3_start_missing_credential noKeyState (Or.inl rfl) rfl rfl

/-- Counterexample to claim C4: a cycle that is awaiting its fetch
when stop() runs (leaving status idle with the paused message) does
not discard its result: when the fetch then resolves with a good
verdict, the continuation overwrites the stopped state with status
good and the affirmation message — the code has no guard after the
await, so MonitorStatus is mutated after stop. -/
theorem c4_counterexample :
    (stopThenResolve goodEnv runningState).1.status = "idle" ∧
    (stopThenResolve goodEnv runningState).1.lastMessage = some "Monitoring paused." ∧
    (stopThenResolve goodEnv runningState).2.state.status = "good" ∧
    (stopThenResolve goodEnv runningState).2.state.lastMessage = some "Mom is happy." ∧
    (stopThenResolve goodEnv runningState).2.state.status ≠ "idle" :=
  ⟨rfl, rfl, rfl, rfl, by decide⟩

/-- Claim C4 as amended: stop() cancels the interval and sets status
idle with the paused message, but an in-flight cycle is not guarded:
when its network call resolves after stop(), the continuation applies
the verdict to the monitor state exactly as in an active session —
here a good verdict overwrites the stopped state with status good and
the affirmation message (the interval itself stays cancelled). -/
theorem c4_stop_not_guarded (env : CycleEnv) (s : MonitorState)
    (msg : Option String) (ok : Bool)
    (hactive : s.isActive = true)
    (hnet : env.net = .resolved ok (.json (some (.jsonVal (some "good") msg)))) :
    (stopThenResolve env s).1.status = "idle" ∧
    (stopThenResolve env s).1.lastMessage = some "Monitoring paused." ∧
    (stopThenResolve env s).1.intervalActive = false ∧
    (stopThenResolve env s).2.state.status = "good" ∧
    (stopThenResolve env s).2.state.lastMessage = some "Mom is happy." ∧
    (stopThenResolve env s).2.state.intervalActive = false := by
  simp [stopThenResolve, toggleMonitoring, analyzeStart, hactive,
        analyzeResolve, hnet, analyzeVerdict]

/-- Witness for the amended C4 at a concrete run. -/
theorem c4_stop_not_guarded_witness :
    (stopThenResolve goodEnv runningState).1.status = "idle" ∧
    (stopThenResolve goodEnv runningState).1.lastMessage = some "Monitoring paused." ∧
    (stopThenResolve goodEnv runningState).1.intervalActive = false ∧
    (stopThenResolve goodEnv runningState).2.state.status = "good" ∧
    (stopThenResolve goodEnv runningState).2.state.lastMessage = some "Mom is happy." ∧
    (stopThenResolve goodEnv runningState).2.state.intervalActive = false :=
  c4_stop_not_guarded goodEnv runningState none true rfl rfl

/-- A cycle environment whose candidate text is not valid JSON. -/
def malformedEnv : CycleEnv :=
  { refsPresent := true, streamActive := true,
    net := .resolved true (.json (some .notJson)), sink := noSink }

/-- Claim C5: every throwing step of a cycle is caught by the handler,
which sets MonitorStatus to error, issues no announce or record call,
and leaves the last message exactly as it was before the cycle.  In
this code every thrown failure comes from the client chain inside the
try block — network rejection, non-JSON body, missing candidate field,
non-JSON candidate text (the malformed-response case), null verdict —
the sampler prefix has no throwing step (absent refs are an early
return, and the canvas calls on a same-origin camera element do not
throw), so these are all the thrown failures a cycle can produce. -/
theorem c5_failure_caught (env : CycleEnv) (s : MonitorState) (e : AnalyzeErr)
    (href : env.refsPresent = true)
    (herr : analyzeVerdict env.net = .error e) :
    (analyzeFrame env s).state.status = "error" ∧
    (analyzeFrame env s).state.lastMessage = s.lastMessage ∧
    (analyzeFrame env s).announces = [] ∧
    (analyzeFrame env s).records = [] := by
  simp [analyzeFrame, href, analyzeStart, analyzeResolve, herr]

/-- Witness for C5 at a concrete malformed candidate text. -/
theorem c5_failure_caught_witness :
    (analyzeFrame malformedEnv idleState).state.status = "error" ∧
    (analyzeFrame malformedEnv idleState).state.lastMessage = idleState.lastMessage ∧
    (analyzeFrame malformedEnv idleState).announces = [] ∧
    (analyzeFrame malformedEnv idleState).records = [] :=
  c5_failure_caught malformedEnv idleState .verdictNotJson rfl rfl

/-- A streamless cycle environment whose response still parses to a
good verdict (the request goes out with whatever the blank canvas
encoded; the response is an input of the model). -/
def noStreamEnv : CycleEnv :=
  { refsPresent := true, streamActive := false,
    net := goodNet, sink := noSink }

/-- A cycle environment with videoRef or canvasRef unattached. -/
def noRefsEnv : CycleEnv :=
  { refsPresent := false, streamActive := false,
    net := goodNet, sink := noSink }

/-- Counterexample to claim C6: a cycle with no active video stream
does not fail at capture and is not converted to the error status —
nothing in analyzeFrame consults the stream, so a streamless cycle
proceeds to the network and here ends with MonitorStatus good, a
silent success rather than a SourceUnavailable error. -/
theorem c6_counterexample :
    (analyzeFrame noStreamEnv runningState).state.status = "good" ∧
    (analyzeFrame noStreamEnv runningState).state.status ≠ "error" ∧
    (analyzeFrame noStreamEnv runningState).announces = [] :=
  ⟨rfl, by decide, rfl⟩

/-- Claim C6 as amended: the cycle never detects stream absence: the
result of analyzeFrame is entirely independent of whether a stream is
attached (capture has no SourceUnavailable failure), and when the
video or canvas ref is unattached the handler returns early with no
state change at all — neither an error status nor a success. -/
theorem c6_no_source_detection (env : CycleEnv) (s : MonitorState) (b : Bool) :
    analyzeFrame { env with streamActive := b } s = analyzeFrame env s ∧
    (env.refsPresent = false →
      analyzeFrame env s =
        { state := s, announces := [], records := [], sinkWrites := [] }) := by
  obtain ⟨r, sa, n, k⟩ := env
  refine ⟨rfl, fun h => ?_⟩
  simp only at h
  simp [analyzeFrame, h]

/-- Witness for the amended C6: with unattached refs a concrete cycle
leaves the state untouched. -/
theorem c6_no_source_detection_witness :
    analyzeFrame noRefsEnv idleState =
      { state := idleState, announces := [], records := [], sinkWrites := [] } :=
  (c6_no_source_detection noRefsEnv idleState true).2 rfl

/-- Counterexample to claim C7: the code never inspects the HTTP
status of a resolved response, so the claimed classification fails.  A
response with a non-success status whose body still carries a
parseable candidate verdict is accepted outright — it does not fail at
all, let alone with TransportError — and a non-success status with a
JSON error body and no candidates fails at the candidate access, a
step of response-shape decoding, not a failure of the network call. -/
theorem c7_counterexample :
    analyzeVerdict
        (.resolved false (.json (some (.jsonVal (some "good") (some "Ok"))))) =
      .ok (some "good", some "Ok") ∧
    analyzeVerdict (.resolved false (.json none)) = .error .candidatesMissing :=
  ⟨rfl, rfl⟩

/-- Claim C7 as amended: failures of analyze are classified by the
step that threw, not by the claimed taxonomy.  The HTTP success flag
is never read — two resolved responses differing only in it decode
identically; the malformed-verdict failure occurs exactly when a
present candidate text is not valid JSON; and the only failure of the
network call itself is an outright rejection of the fetch (a
non-success HTTP status is not a failure of the call). -/
theorem c7_error_classification :
    (∀ (a b : Bool) (body : BodyOutcome),
      analyzeVerdict (.resolved a body) = analyzeVerdict (.resolved b body)) ∧
    (∀ n : NetOutcome,
      analyzeVerdict n = .error .verdictNotJson ↔
        ∃ ok : Bool, n = .resolved ok (.json (some .notJson))) ∧
    (∀ n : NetOutcome,
      analyzeVerdict n = .error .fetchReject ↔ n = .reject) := by
  refine ⟨?_, ?_, ?_⟩
  · intro a b body
    rcases body with _ | c
    · rfl
    · rcases c with _ | t
      · rfl
      · rcases t with _ | _ | ⟨st, msg⟩ <;> rfl
  · intro n
    rcases n with _ | ⟨ok, body⟩
    · simp [analyzeVerdict]
    · rcases body with _ | c
      · simp [analyzeVerdict]
      · rcases c with _ | t
        · simp [analyzeVerdict]
        · rcases t with _ | _ | ⟨st, msg⟩ <;> simp [analyzeVerdict]
  · intro n
    rcases n with _ | ⟨ok, body⟩
    · simp [analyzeVerdict]
    · rcases body with _ | c
      · simp [analyzeVerdict]
      · rcases c with _ | t
        · simp [analyzeVerdict]
        · rcases t with _ | _ | ⟨st, msg⟩ <;> simp [analyzeVerdict]

/-- Witness for the amended C7: the success flag is ignored on a
concrete pair of responses. -/
theorem c7_error_classification_witness :
    analyzeVerdict (.resolved true .notJson) =
      analyzeVerdict (.resolved false .notJson) :=
  c7_error_classification.1 true false .notJson

/-- A speech device with an utterance in progress. -/
def busySynth : SpeechSynth :=
  { available := true, speaking := true, delivered := ["Sit up straight"] }

/-- A free speech device. -/
def freeSynth : SpeechSynth :=
  { available := true, speaking := false, delivered := [] }

/-- Claim C8: while an utterance is in progress an announce call is a
no-op — the device state is unchanged, so nothing is queued,
interrupted or overlapped — and from a free channel two back-to-back
announce calls deliver only the first: the first hands its text to the
device and starts speaking, so the second, issued while the channel is
speaking, changes nothing; at most one utterance is ever active. -/
theorem c8_single_utterance (busy synth : SpeechSynth) (t a b : String)
    (hbusy : busy.speaking = true)
    (hav : synth.available = true)
    (hfree : synth.speaking = false) :
    speakText t busy = busy ∧
    (speakText a synth).speaking = true ∧
    speakText b (speakText a synth) = speakText a synth ∧
    (speakText a synth).delivered = synth.delivered ++ [a] := by
  refine ⟨?_, ?_, ?_, ?_⟩ <;> simp [speakText, hbusy, hav, hfree]

/-- Witness for C8 at a concrete busy and a concrete free device. -/
theorem c8_single_utterance_witness :
    speakText "Eat your food" busySynth = busySynth ∧
    (speakText "Sit up straight" freeSynth).speaking = true ∧
    speakText "Eat your food" (speakText "Sit up straight" freeSynth) =
      speakText "Sit up straight" freeSynth ∧
    (speakText "Sit up straight" freeSynth).delivered =
      freeSynth.delivered ++ ["Sit up straight"] :=
  c8_single_utterance busySynth freeSynth "Eat your food" "Sit up straight"
    "Eat your food" rfl rfl rfl

/-- Helper: the cycle result apart from the committed sink documents —
the monitor state, the announce calls and the record calls — does not
depend on the sink environment. -/
theorem analyzeFrame_sink_independent (env : CycleEnv) (s : MonitorState)
    (k : SinkEnv) :
    (analyzeFrame { env with sink := k } s).state = (analyzeFrame env s).state ∧
    (analyzeFrame { env with sink := k } s).announces =
      (analyzeFrame env s).announces ∧
    (analyzeFrame { env with sink := k } s).records =
      (analyzeFrame env s).records := by
  obtain ⟨r, sa, n, k0⟩ := env
  rcases r with _ | _
  · exact ⟨rfl, rfl, rfl⟩
  · rcases h : analyzeVerdict n with e | ⟨st, msg⟩
    · simp [analyzeFrame, analyzeResolve, h]
    · by_cases hb : st = some "bad" <;>
        simp [analyzeFrame, analyzeResolve, h, hb]

/-- A sink that is configured but whose write rejects. -/
def failingSink : SinkEnv := { dbConfigured := true, writeFails := true }

/-- A configured, working sink. -/
def workingSink : SinkEnv := { dbConfigured := true, writeFails := false }

/-- Claim C9: the sink is best-effort: with no configured db logEvent
is a no-op, a rejecting write commits nothing and the rejection is
swallowed inside logEvent, and the whole cycle result apart from the
committed documents — the monitor state (status and last message), the
announce calls, the record calls — is the same under any two sink
environments, so a sink failure never alters MonitorStatus or the
last message and never interrupts the loop. -/
theorem c9_sink_best_effort (env : CycleEnv) (s : MonitorState)
    (sink1 sink2 failing : SinkEnv) (msg : Option String) (t : String)
    (hnodb : sink1.dbConfigured = false)
    (hfail : failing.writeFails = true) :
    logEvent sink1 msg t = [] ∧
    logEvent failing msg t = [] ∧
    (analyzeFrame { env with sink := sink1 } s).state =
      (analyzeFrame { env with sink := sink2 } s).state ∧
    (analyzeFrame { env with sink := sink1 } s).announces =
      (analyzeFrame { env with sink := sink2 } s).announces ∧
    (analyzeFrame { env with sink := sink1 } s).records =
      (analyzeFrame { env with sink := sink2 } s).records := by
  refine ⟨by simp [logEvent, hnodb], by simp [logEvent, hfail], ?_, ?_, ?_⟩
  · rw [(analyzeFrame_sink_independent env s sink1).1,
        (analyzeFrame_sink_independent env s sink2).1]
  · rw [(analyzeFrame_sink_independent env s sink1).2.1,
        (analyzeFrame_sink_independent env s sink2).2.1]
  · rw [(analyzeFrame_sink_independent env s sink1).2.2,
        (analyzeFrame_sink_independent env s sink2).2.2]

/-- Witness for C9 on a concrete bad cycle whose sink write fails. -/
theorem c9_sink_best_effort_witness :
    logEvent noSink (some "Sit up straight") "violation" = [] ∧
    logEvent failingSink (some "Sit up straight") "violation" = [] ∧
    (analyzeFrame { sitUpEnv with sink := noSink } runningState).state =
      (analyzeFrame { sitUpEnv with sink := failingSink } runningState).state ∧
    (analyzeFrame { sitUpEnv with sink := noSink } runningState).announces =
      (analyzeFrame { sitUpEnv with sink := failingSink } runningState).announces ∧
    (analyzeFrame { sitUpEnv with sink := noSink } runningState).records =
      (analyzeFrame { sitUpEnv with sink := failingSink } runningState).records :=
  c9_sink_best_effort sitUpEnv runningState noSink failingSink failingSink
    (some "Sit up straight") "violation" rfl rfl

/-- A cycle environment whose candidate text is the JSON document
"null": JSON.parse succeeds, returning null. -/
def nullEnv : CycleEnv :=
  { refsPresent := true, streamActive := true,
    net := .resolved true (.json (some .jsonNull)), sink := noSink }

/-- A cycle environment whose candidate text parses to an object with
the out-of-contract status "unknown". -/
def unknownEnv : CycleEnv :=
  { refsPresent := true, streamActive := true,
    net := .resolved true (.json (some (.jsonVal (some "unknown") none))),
    sink := noSink }

/-- Counterexample to claim C10: a candidate text consisting of the
JSON document "null" parses as JSON and has no status field, yet the
cycle does not treat it as good: result.status throws a TypeError on
the null value, the catch runs, and MonitorStatus becomes error. -/
theorem c10_counterexample :
    (analyzeFrame nullEnv runningState).state.status = "error" ∧
    (analyzeFrame nullEnv runningState).state.status ≠ "good" :=
  ⟨rfl, by decide⟩

/-- Claim C10 as amended: a cycle whose candidate text parses to any
JSON value other than null with a status that is not exactly the
string "bad" — an absent or non-string status field, a non-object
value, or an out-of-contract string such as "unknown" — is treated as
good: MonitorStatus good, the fixed affirmation message, and no
announce or record call; only the JSON value null escapes this,
because the property access on it throws and the cycle ends in the
error status instead. -/
theorem c10_nonbad_is_good (env : CycleEnv) (s : MonitorState)
    (st msg : Option String) (ok : Bool)
    (href : env.refsPresent = true)
    (hnet : env.net = .resolved ok (.json (some (.jsonVal st msg))))
    (hst : st ≠ some "bad") :
    (analyzeFrame env s).state.status = "good" ∧
    (analyzeFrame env s).state.lastMessage = some "Mom is happy." ∧
    (analyzeFrame env s).announces = [] ∧
    (analyzeFrame env s).records = [] := by
  simp [analyzeFrame, href, analyzeStart, analyzeResolve, hnet,
        analyzeVerdict, hst]

/-- Witness for the amended C10 at the out-of-contract status
"unknown". -/
theorem c10_nonbad_is_good_witness :
    (analyzeFrame unknownEnv idleState).state.status = "good" ∧
    (analyzeFrame unknownEnv idleState).state.lastMessage = some "Mom is happy." ∧
    (analyzeFrame unknownEnv idleState).announces = [] ∧
    (analyzeFrame unknownEnv idleState).records = [] :=
  c10_nonbad_is_good unknownEnv idleState (some "unknown") none true rfl rfl
    (by decide)

end AiMom
